import Mathlib

/-!
Verification development for the fabric/puppet EC2 provisioning scripts
(`fabfile/ec2.py`, `fabfile/puppet.py`, `fabfile/utils.py`).

The Python code is shallowly embedded.  Cloud-API and operator interactions
are modelled as explicit inputs (sequences of poll outcomes, probe results,
prompt inputs) and explicit outputs (result values, API-call traces, event
traces).  Process-aborting `die`/`abort` calls become `died` result
constructors carrying the message; an exception escaping a loop becomes a
`raised` constructor; loops that may run forever consume a finite list of
environment responses and report a distinguished "exhausted" value when the
list runs out while the loop would continue.

External library semantics used by the scripts and reflected here:
  * `fabric.decorators.runs_once` memoizes the first return value and
    returns it unchanged, without re-running the body, on every later call;
  * `fabric.operations.prompt(validate=r)` anchors the regex as `^r$` and
    re-prompts until the operator input matches;
  * Python dict tags: lookup by key, later writes overwrite (modelled as an
    association list with first-match lookup and prepend-on-write).
-/

/-- An EC2 instance handle as the scripts use it: identifier, network
addresses and the mutable tag set.  Tags are an association list whose first
matching key wins; `add_tag` prepends, mirroring dict overwrite. -/
structure Instance where
  id : String
  ip_address : String
  dns_name : String
  tags : List (String × String)
deriving DecidableEq

/-- Python `tags.get(k)`: dict lookup returning an optional value. -/
def tagsGet (tags : List (String × String)) (k : String) : Option String :=
  (tags.find? (fun p => p.1 == k)).map (fun p => p.2)

/-- `inst.add_tag(k, v)`: write (or overwrite) a tag. -/
def add_tag (i : Instance) (k v : String) : Instance :=
  { i with tags := (k, v) :: i.tags }

/-- One `inst.update()` poll in `ec2_launch`: it either returns a status
string, raises `boto.exception.EC2ResponseError` (the transient
"instance ID does not exist" class the code catches), or raises an
exception of some other class. -/
inductive PollOutcome where
  | ok (status : String)
  | ec2ResponseError
  | otherError (e : String)
deriving DecidableEq

/-- How the `while status == 'pending'` loop in `ec2_launch` ends:
with a non-pending status, with an uncaught exception, or not at all
within the supplied outcome sequence. -/
inductive PollExit where
  | done (status : String)
  | raised (e : String)
  | exhausted
deriving DecidableEq

/-- The polling loop of `ec2_launch` (ec2.py lines 131-139):

    status = 'pending'
    while status == 'pending':
        wait()
        try:
            status = inst.update()
        except boto.exception.EC2ResponseError:
            pass

Each loop iteration consumes one element of the outcome list.  The second
component counts iterations (i.e. `wait()`/`update()` attempts) performed. -/
def pollLoop (status : String) : List PollOutcome → PollExit × Nat
  | [] => if status = "pending" then (.exhausted, 0) else (.done status, 0)
  | o :: rest =>
    if status = "pending" then
      match o with
      | .ok s => let r := pollLoop s rest; (r.1, r.2 + 1)
      | .ec2ResponseError => let r := pollLoop status rest; (r.1, r.2 + 1)
      | .otherError e => (.raised e, 1)
    else (.done status, 0)

/-- `fabric.operations.prompt` with a `validate` regex: keep asking until an
input matches; `none` when the supplied operator inputs run out first. -/
def promptValidated (validate : String → Bool) : List String → Option String
  | [] => none
  | x :: xs => if validate x then some x else promptValidated validate xs

/-- One character of the anchored name regex `^[a-zA-Z0-9_-]+$` used by the
`prompt` call in `ec2_launch`. -/
def validNameChar (c : Char) : Bool :=
  (decide ('a' ≤ c) && decide (c ≤ 'z')) ||
  (decide ('A' ≤ c) && decide (c ≤ 'Z')) ||
  (decide ('0' ≤ c) && decide (c ≤ '9')) ||
  c == '_' || c == '-'

/-- Whole-string match of `^[a-zA-Z0-9_-]+$`: non-empty, all characters in
the class. -/
def validName (s : String) : Bool :=
  !s.isEmpty && s.data.all validNameChar

/-- The `die(...)` message of `ec2_launch` for a non-running terminal
status (ec2.py line 154). -/
def launchErrMsg (status : String) : String :=
  "Couldn't launch EC2 instance. Instance status was: " ++ status

/-- Result of `ec2_launch`: the tagged instance, a fatal `die`, an uncaught
exception from polling, or an unfinished loop (outcome/input list ran out
while the code would still be looping/prompting). -/
inductive LaunchResult where
  | launched (inst : Instance)
  | died (msg : String)
  | raised (e : String)
  | stillPolling
  | stillPrompting
deriving DecidableEq

/-- `ec2_launch` (ec2.py lines 108-154) after the run-instance request:
poll until non-pending; on "running", resolve the name (Python
`if not name:` prompts when the argument is `None` or the empty string),
write the `puppet:name` tag and return the instance; on any other status,
`die` with the observed status in the message. -/
def ec2_launch (outcomes : List PollOutcome) (name : Option String)
    (promptInputs : List String) (inst : Instance) : LaunchResult :=
  match pollLoop "pending" outcomes with
  | (.exhausted, _) => .stillPolling
  | (.raised e, _) => .raised e
  | (.done status, _) =>
    if status = "running" then
      let chosen : Option String :=
        match name with
        | none => promptValidated validName promptInputs
        | some n => if n = "" then promptValidated validName promptInputs else some n
      match chosen with
      | some nm => .launched (add_tag inst "puppet:name" nm)
      | none => .stillPrompting
    else .died (launchErrMsg status)

/-- A possible Python argument to `get_puppetmaster`: an already-resolved
`boto.ec2.instance.Instance`, a string token, `None`, or a value of any
other type (the duck-typed dispatch distinguishes exactly these cases). -/
inductive PyVal where
  | instVal (i : Instance)
  | strVal (s : String)
  | noneVal
  | otherVal
deriving DecidableEq

/-- The slice of the fabric `env` object the lookup reads:
`env.working_master`, with `none` meaning `'working_master' in env` is
false. -/
structure FabEnv where
  working_master : Option Instance
deriving DecidableEq

/-- Cloud API calls `get_puppetmaster` can issue: the
`conn.get_all_instances()` account-wide listing and the `inst.update()`
status refresh done per candidate while rendering the menu. -/
inductive ApiCall where
  | listAllInstances
  | instanceStatus (id : String)
deriving BEq, DecidableEq

/-- Result of `get_puppetmaster`: a master instance, a fatal `die` with its
message, the implicit Python `None` return when control falls off the end of
the function, an unfinished interactive prompt (operator inputs ran out
while the code would still be re-prompting), or the `re.error` crash raised
when the menu regex is built from an empty master list (`'[0--1]$'` is an
invalid pattern). -/
inductive GPResult where
  | found (i : Instance)
  | died (msg : String)
  | pyNone
  | promptPending
  | invalidRegex
deriving DecidableEq

/-- The `die(...)` message of the string branch of `get_puppetmaster`
(ec2.py lines 200-201). -/
def gpDieMsg (idCount nameCount : Nat) (token : String) : String :=
  toString idCount ++ " ID matches and " ++ toString nameCount ++
    " name matches for instance search term \"" ++ token ++ "\""

/-- `('puppet:type', 'puppetmaster') in i.tags.items()` (ec2.py line 189). -/
def isMaster (i : Instance) : Bool :=
  tagsGet i.tags "puppet:type" == some "puppetmaster"

/-- Membership of the single character `c` in the regex character class
`[0-N]` where `N` is the decimal numeral of `n`: the class source text is
`0-d₁d₂…dₖ` (`dᵢ` the digits of `n`), which regex syntax parses as the
range `0`-`d₁` followed by the literal characters `d₂…dₖ`. -/
def inMenuClass (n : Nat) (c : Char) : Bool :=
  match (Nat.repr n).data with
  | [] => false
  | d :: rest => (decide ('0' ≤ c) && decide (c ≤ d)) || rest.contains c

/-- The validation regex of the master-selection prompt,
`'[0-%s]$' % (len(masters) - 1)` (ec2.py line 211), anchored by fabric's
`prompt` to `^[0-N]$`: it accepts exactly the one-character strings whose
character lies in the class, where `n = len(masters) - 1`. -/
def menuValidate (n : Nat) (s : String) : Bool :=
  match s.data with
  | [c] => inMenuClass n c
  | _ => false

/-- Python `int(key)` for the accepted menu keys (always a single decimal
digit here). -/
def keyToNat (s : String) : Nat :=
  match s.data with
  | [c] => c.toNat - '0'.toNat
  | _ => 0

/-- `get_puppetmaster` (ec2.py lines 175-213).  Inputs: the argument, the
fabric `env` slice, the account's instances as the cloud would list them,
and the operator's menu prompt inputs.  Output: the result together with
the trace of cloud API calls this invocation issues.  Branch order follows
the source: instance argument returned first with no API call; otherwise
one `get_all_instances` listing and the `role=master` filter; then string
lookup by id then name; then the `working_master` env check; then the
interactive menu for `None`; any other argument falls off the end. -/
def get_puppetmaster (master : PyVal) (env : FabEnv) (cloud : List Instance)
    (menuInputs : List String) : GPResult × List ApiCall :=
  match master with
  | .instVal i => (.found i, [])
  | _ =>
    let masters := cloud.filter isMaster
    match master with
    | .strVal s =>
      let id_matches := masters.filter (fun i => i.id == s)
      match id_matches with
      | [m] => (.found m, [.listAllInstances])
      | _ =>
        let n_matches := masters.filter (fun i => tagsGet i.tags "puppet:name" == some s)
        match n_matches with
        | [m] => (.found m, [.listAllInstances])
        | _ =>
          (.died (gpDieMsg id_matches.length n_matches.length s), [.listAllInstances])
    | _ =>
      match env.working_master with
      | some m => (.found m, [.listAllInstances])
      | none =>
        match master with
        | .noneVal =>
          let statusCalls := masters.map (fun i => ApiCall.instanceStatus i.id)
          let calls := ApiCall.listAllInstances :: statusCalls
          if masters.isEmpty then
            (.invalidRegex, calls)
          else
            match promptValidated (menuValidate (masters.length - 1)) menuInputs with
            | some key =>
              match masters[keyToNat key]? with
              | some m => (.found m, calls)
              | none => (.pyNone, calls)
            | none => (.promptPending, calls)
        | _ => (.pyNone, [.listAllInstances])

/-- `true` exactly when the argument is an already-resolved instance
handle (the branch of `get_puppetmaster` that returns before any API
call). -/
def isInstArg : PyVal → Bool
  | .instVal _ => true
  | _ => false

/-- A named security group with its ingress rules
(protocol, from-port, to-port, source CIDR). -/
structure SecurityGroup where
  name : String
  description : String
  rules : List (String × Nat × Nat × String)
deriving DecidableEq

/-- The cloud-side security-group state, instrumented with counters for the
`get_all_security_groups` listing calls and the `create_security_group`
calls actually sent to the API. -/
structure CloudSG where
  groups : List SecurityGroup
  create_calls : Nat
  list_calls : Nat
deriving DecidableEq

/-- The body of `ec2_security_group` (ec2.py lines 157-172), without the
decorator: list all groups, return the one with the configured name tagged
"existing"; on `KeyError`, create it, authorize tcp/22 from 0.0.0.0/0 and
return it tagged "created". -/
def ec2_security_group_body (groupName : String) (cloud : CloudSG) :
    (SecurityGroup × String) × CloudSG :=
  let cloud1 : CloudSG := { cloud with list_calls := cloud.list_calls + 1 }
  match cloud1.groups.find? (fun g => g.name == groupName) with
  | some g => ((g, "existing"), cloud1)
  | none =>
    let g : SecurityGroup :=
      { name := groupName, description := "Group created for puppet.",
        rules := [("tcp", 22, 22, "0.0.0.0/0")] }
    ((g, "created"),
     { cloud1 with groups := cloud1.groups ++ [g],
                   create_calls := cloud1.create_calls + 1 })

/-- `ec2_security_group` as decorated with `fabric.decorators.runs_once`:
when the memo cache holds a previous return value, that value is returned
unchanged and the body (hence the cloud API) is not touched; otherwise the
body runs once and its result is cached. -/
def ec2_security_group (groupName : String)
    (cache : Option (SecurityGroup × String)) (cloud : CloudSG) :
    (SecurityGroup × String) × Option (SecurityGroup × String) × CloudSG :=
  match cache with
  | some r => (r, some r, cloud)
  | none =>
    let r := ec2_security_group_body groupName cloud
    (r.1, some r.1, r.2)

/-- Two successive calls of the memoized `ec2_security_group` in one fab
session, starting from an empty cache: returns both results and the final
cloud state. -/
def ec2_security_group_twice (groupName : String) (cloud : CloudSG) :
    (SecurityGroup × String) × (SecurityGroup × String) × CloudSG :=
  let c1 := ec2_security_group groupName none cloud
  let c2 := ec2_security_group groupName c1.2.1 c1.2.2
  (c1.1, c2.1, c2.2.2)

/-- Externally observable per-slave steps of `create_slaves`
(ec2.py lines 79-89) and `puppet.install_slave` (puppet.py lines 14-22):
the launch request, the tag writes (the `puppet:name` write happens inside
`ec2_launch`, the role and master back-reference writes in the loop body),
the `wait_until_alive` readiness wait and the slave install command. -/
inductive Event where
  | launch (name : String)
  | tagWrite (instId key value : String)
  | readinessWait (instId : String)
  | installSlave (instId : String)
deriving DecidableEq

/-- The events of one iteration of the `create_slaves` loop, in source
order: `ec2_launch` (which writes the `puppet:name` tag before returning),
`add_tag("puppet:type", "puppetslave")`,
`add_tag("puppet:master_id", master.id)`, `wait_until_alive()`,
`puppet.install_slave()`. -/
def slave_block (master : Instance) (slaveName : String) (inst : Instance) :
    List Event :=
  [ .launch slaveName,
    .tagWrite inst.id "puppet:name" slaveName,
    .tagWrite inst.id "puppet:type" "puppetslave",
    .tagWrite inst.id "puppet:master_id" master.id,
    .readinessWait inst.id,
    .installSlave inst.id ]

/-- The event trace of `for i in range(1, int(num)+1): ...` in
`create_slaves`: `num` sequential iterations, iteration `i` operating on
the instance the cloud returns for the `i`-th launch. -/
def create_slaves_trace (master : Instance) (slaveName : String)
    (insts : Nat → Instance) : Nat → List Event
  | 0 => []
  | n + 1 =>
    create_slaves_trace master slaveName insts n ++
      slave_block master slaveName (insts n)

/-- Event predicate: a `role=slave` tag write
(`add_tag("puppet:type", "puppetslave")`). -/
def isSlaveRoleTag : Event → Bool
  | .tagWrite _ k v => k == "puppet:type" && v == "puppetslave"
  | _ => false

/-- Event predicate: a back-reference tag write carrying the given master
identifier (`add_tag("puppet:master_id", master.id)`). -/
def isMasterRefTag (masterId : String) : Event → Bool
  | .tagWrite _ k v => k == "puppet:master_id" && v == masterId
  | _ => false

/-- Event predicate: a `wait_until_alive` readiness wait. -/
def isWaitEvent : Event → Bool
  | .readinessWait _ => true
  | _ => false

/-- Event predicate: a slave install command. -/
def isInstallEvent : Event → Bool
  | .installSlave _ => true
  | _ => false

/-- `wait_until_alive` (ec2.py lines 216-227): probe with a remote `run`
command; on success return, on the `SystemExit` a failed fabric command
raises, `wait()` (a 2-time-unit sleep, utils.py lines 11-13) and re-probe.
Input: the success/failure of each successive probe.  Output: `some
(probes made, total time slept)` when a probe succeeds within the supplied
list, `none` when the list is exhausted with every probe failing (the code
would still be looping). -/
def wait_until_alive : List Bool → Option (Nat × Nat)
  | [] => none
  | b :: rest =>
    if b then some (1, 0)
    else
      match wait_until_alive rest with
      | some r => some (r.1 + 1, r.2 + 2)
      | none => none

/-- A concrete master instance used in witness scenarios. -/
def demoMaster (k : Nat) : Instance :=
  { id := "i-" ++ Nat.repr k, ip_address := "10.0.0.1", dns_name := "host",
    tags := [("puppet:type", "puppetmaster"), ("puppet:name", "m" ++ Nat.repr k)] }

/-- A concrete account listing of eleven masters, enough to make the
menu-validation regex degenerate. -/
def demoMasters : List Instance := (List.range 11).map demoMaster

/-- Unfolding `pollLoop` one step on an `ok` outcome while pending. -/
theorem pollLoop_pending_cons_ok (s : String) (rest : List PollOutcome) :
    pollLoop "pending" (PollOutcome.ok s :: rest) =
      ((pollLoop s rest).1, (pollLoop s rest).2 + 1) := rfl

/-- Unfolding `pollLoop` one step on a suppressed error while pending. -/
theorem pollLoop_pending_cons_err (rest : List PollOutcome) :
    pollLoop "pending" (PollOutcome.ec2ResponseError :: rest) =
      ((pollLoop "pending" rest).1, (pollLoop "pending" rest).2 + 1) := rfl

/-- A run of polls that keep answering "pending" only adds iterations:
the loop's exit is decided by what follows. -/
theorem pollLoop_replicate_pending (j : Nat) (tail : List PollOutcome) :
    pollLoop "pending" (List.replicate j (PollOutcome.ok "pending") ++ tail) =
      ((pollLoop "pending" tail).1, (pollLoop "pending" tail).2 + j) := by
  induction j with
  | zero => simp
  | succ n ih =>
    rw [List.replicate_succ, List.cons_append, pollLoop_pending_cons_ok, ih]
    rfl

/-- A run of suppressed `EC2ResponseError`s only adds iterations. -/
theorem pollLoop_replicate_err (k : Nat) (tail : List PollOutcome) :
    pollLoop "pending" (List.replicate k PollOutcome.ec2ResponseError ++ tail) =
      ((pollLoop "pending" tail).1, (pollLoop "pending" tail).2 + k) := by
  induction k with
  | zero => simp
  | succ n ih =>
    rw [List.replicate_succ, List.cons_append, pollLoop_pending_cons_err, ih]
    rfl

/-- Claim C7: the readiness waiter retries indefinitely at a fixed interval
of 2 time units, with no timeout and no maximum retry count: after any
number `k` of failed probes, each recovered by a 2-unit sleep and a
re-probe, a succeeding probe makes it return (having made `k + 1` probes
and slept `2 * k` units), and as long as every probe fails it never
returns. -/
theorem wait_until_alive_retries (k : Nat) :
    wait_until_alive (List.replicate k false ++ [true]) = some (k + 1, 2 * k) ∧
    wait_until_alive (List.replicate k false) = none := by
  induction k with
  | zero => exact ⟨rfl, rfl⟩
  | succ n ih =>
    constructor
    · rw [List.replicate_succ, List.cons_append]
      show (match wait_until_alive (List.replicate n false ++ [true]) with
            | some r => some (r.1 + 1, r.2 + 2)
            | none => none) = _
      rw [ih.1]
      show some (n + 1 + 1, 2 * n + 2) = some (n + 1 + 1, 2 * (n + 1))
      rw [Nat.mul_succ]
    · rw [List.replicate_succ]
      show (match wait_until_alive (List.replicate n false) with
            | some r => some (r.1 + 1, r.2 + 2)
            | none => none) = none
      rw [ih.2]

/-- Claim C3: inside the status-polling loop, only the
`EC2ResponseError` class (the transient "instance does not exist" error)
is suppressed — after any number `k` of such errors the loop is still
going and completes normally when a status arrives — while an exception
of any other class raised by a poll propagates out of the loop at once,
leaving the remaining outcomes unconsumed. -/
theorem poll_error_handling (k j : Nat) (e : String) (rest : List PollOutcome) :
    pollLoop "pending"
        (List.replicate k PollOutcome.ec2ResponseError ++ [PollOutcome.ok "running"]) =
      (.done "running", k + 1) ∧
    pollLoop "pending"
        (List.replicate j (PollOutcome.ok "pending") ++ PollOutcome.otherError e :: rest) =
      (.raised e, j + 1) := by
  constructor
  · rw [pollLoop_replicate_err]
    show ((PollExit.done "running", 1).1, (PollExit.done "running", 1).2 + k) = _
    rw [Nat.add_comm]
  · rw [pollLoop_replicate_pending]
    show ((PollExit.raised e, 1).1, (PollExit.raised e, 1).2 + j) = _
    rw [Nat.add_comm]

/-- Claim C1: starting from status "pending", the launcher keeps polling
through every poll that answers "pending" (after `k` such answers and one
terminal answer `t` it has made `k + 1` polls); when the status becomes
"running" it returns the instance handle, tagged with the supplied name;
for any other terminal status value it dies fatally and the observed
status value appears in the error message. -/
theorem launch_status_spec (k : Nat) (t : String) (ht : t ≠ "pending")
    (nm : String) (hnm : nm ≠ "") (inputs : List String) (inst : Instance) :
    pollLoop "pending" (List.replicate k (PollOutcome.ok "pending") ++ [PollOutcome.ok t]) =
      (.done t, k + 1) ∧
    (t = "running" →
      ec2_launch (List.replicate k (PollOutcome.ok "pending") ++ [PollOutcome.ok t])
          (some nm) inputs inst =
        .launched (add_tag inst "puppet:name" nm)) ∧
    (t ≠ "running" →
      ec2_launch (List.replicate k (PollOutcome.ok "pending") ++ [PollOutcome.ok t])
          (some nm) inputs inst =
        .died (launchErrMsg t)) := by
  have hpoll : pollLoop "pending"
      (List.replicate k (PollOutcome.ok "pending") ++ [PollOutcome.ok t]) =
      (.done t, k + 1) := by
    rw [pollLoop_replicate_pending, pollLoop_pending_cons_ok]
    show (((pollLoop t []).1, (pollLoop t []).2 + 1).1,
          ((pollLoop t []).1, (pollLoop t []).2 + 1).2 + k) = _
    unfold pollLoop
    rw [if_neg ht]
    simp [Nat.add_comm]
  refine ⟨hpoll, ?_, ?_⟩
  · intro hrun
    subst hrun
    unfold ec2_launch
    rw [hpoll]
    simp [hnm]
  · intro hnot
    unfold ec2_launch
    rw [hpoll]
    simp [hnot]

/-- Witness for C1 at a concrete input: two "pending" answers then
"terminated" make the launcher die with the status in the message. -/
theorem launch_status_spec_witness :
    ec2_launch (List.replicate 2 (PollOutcome.ok "pending") ++ [PollOutcome.ok "terminated"])
        (some "web") [] (demoMaster 0) =
      .died (launchErrMsg "terminated") :=
  (launch_status_spec 2 "terminated" (by decide) "web" (by decide) [] (demoMaster 0)).2.2
    (by decide)

/-- A value returned by a validated prompt satisfies the validation
predicate (the prompt re-asks until it does). -/
theorem promptValidated_some (p : String → Bool) :
    ∀ (l : List String) (v : String), promptValidated p l = some v → p v = true := by
  intro l
  induction l with
  | nil => intro v h; exact absurd h (by simp [promptValidated])
  | cons x xs ih =>
    intro v h
    by_cases hx : p x = true
    · have : some x = some v := by simpa [promptValidated, hx] using h
      cases this
      exact hx
    · have hx' : p x = false := by simpa using hx
      exact ih v (by simpa [promptValidated, hx'] using h)

/-- A string matching the launcher's name regex `^[a-zA-Z0-9_-]+$` is
never empty. -/
theorem validName_ne_empty (v : String) (h : validName v = true) : v ≠ "" := by
  intro hv
  subst hv
  exact absurd h (by decide)

/-- Claim C10: `ec2_launch` treats an empty-string name exactly like an
omitted name: once polling has reported "running", the call with
`name = ""` behaves identically to the call with no name, the operator is
prompted under the `[a-zA-Z0-9_-]+` validation, and the `puppet:name` tag
write uses the prompted value, which is never the empty string. -/
theorem launch_empty_name_prompts (outs : List PollOutcome) (n : Nat)
    (hrun : pollLoop "pending" outs = (.done "running", n))
    (inputs : List String) (inst : Instance) :
    ec2_launch outs (some "") inputs inst = ec2_launch outs none inputs inst ∧
    ∀ v, promptValidated validName inputs = some v →
      ec2_launch outs (some "") inputs inst =
        .launched (add_tag inst "puppet:name" v) ∧ v ≠ "" := by
  constructor
  · unfold ec2_launch
    rw [hrun]
    rfl
  · intro v hv
    refine ⟨?_, validName_ne_empty v (promptValidated_some validName inputs v hv)⟩
    unfold ec2_launch
    rw [hrun]
    simp [hv]

/-- Witness for C10 at a concrete input: with `name = ""` and operator
input "web-1", the launched instance is tagged with "web-1". -/
theorem launch_empty_name_prompts_witness :
    ec2_launch [PollOutcome.ok "running"] (some "") ["web-1"] (demoMaster 0) =
      .launched (add_tag (demoMaster 0) "puppet:name" "web-1") ∧
    ("web-1" : String) ≠ "" :=
  (launch_empty_name_prompts [PollOutcome.ok "running"] 1 (by decide) ["web-1"]
      (demoMaster 0)).2 "web-1" (by decide)

/-- Unfolding `get_puppetmaster` on a string argument: id lookup first,
then name lookup, then the fatal count-reporting error. -/
theorem get_puppetmaster_strVal (token : String) (env : FabEnv)
    (cloud : List Instance) (inputs : List String) :
    get_puppetmaster (.strVal token) env cloud inputs =
      (match (cloud.filter isMaster).filter (fun i => i.id == token) with
       | [m] => (GPResult.found m, [ApiCall.listAllInstances])
       | _ =>
         match (cloud.filter isMaster).filter
             (fun i => tagsGet i.tags "puppet:name" == some token) with
         | [m] => (GPResult.found m, [ApiCall.listAllInstances])
         | _ =>
           (GPResult.died
             (gpDieMsg ((cloud.filter isMaster).filter (fun i => i.id == token)).length
               ((cloud.filter isMaster).filter
                 (fun i => tagsGet i.tags "puppet:name" == some token)).length
               token),
            [ApiCall.listAllInstances])) := rfl

/-- Unfolding `get_puppetmaster` on a `None` argument. -/
theorem get_puppetmaster_noneVal (env : FabEnv) (cloud : List Instance)
    (inputs : List String) :
    get_puppetmaster .noneVal env cloud inputs =
      (match env.working_master with
       | some m => (GPResult.found m, [ApiCall.listAllInstances])
       | none =>
         if (cloud.filter isMaster).isEmpty then
           (GPResult.invalidRegex,
            ApiCall.listAllInstances ::
              (cloud.filter isMaster).map (fun i => ApiCall.instanceStatus i.id))
         else
           match promptValidated (menuValidate ((cloud.filter isMaster).length - 1))
               inputs with
           | some key =>
             match (cloud.filter isMaster)[keyToNat key]? with
             | some m =>
               (GPResult.found m,
                ApiCall.listAllInstances ::
                  (cloud.filter isMaster).map (fun i => ApiCall.instanceStatus i.id))
             | none =>
               (GPResult.pyNone,
                ApiCall.listAllInstances ::
                  (cloud.filter isMaster).map (fun i => ApiCall.instanceStatus i.id))
           | none =>
             (GPResult.promptPending,
              ApiCall.listAllInstances ::
                (cloud.filter isMaster).map (fun i => ApiCall.instanceStatus i.id))) := rfl

/-- Unfolding `get_puppetmaster` on an argument that is neither an
instance handle, nor a string, nor `None`. -/
theorem get_puppetmaster_otherVal (env : FabEnv) (cloud : List Instance)
    (inputs : List String) :
    get_puppetmaster .otherVal env cloud inputs =
      (match env.working_master with
       | some m => (GPResult.found m, [ApiCall.listAllInstances])
       | none => (GPResult.pyNone, [ApiCall.listAllInstances])) := rfl

/-- Claim C2: for any token, if the token equals the identifier of exactly
one instance tagged as a master, `get_puppetmaster` returns that master;
otherwise, if it equals the `puppet:name` tag of exactly one master, it
returns that master; otherwise it dies with the message reporting the
count of identifier matches and the count of name matches. -/
theorem puppetmaster_token_lookup (cloud : List Instance) (token : String)
    (env : FabEnv) (inputs : List String) :
    (∀ m, (cloud.filter isMaster).filter (fun i => i.id == token) = [m] →
      get_puppetmaster (.strVal token) env cloud inputs =
        (.found m, [.listAllInstances])) ∧
    (((cloud.filter isMaster).filter (fun i => i.id == token)).length ≠ 1 →
      ∀ m,
        (cloud.filter isMaster).filter
            (fun i => tagsGet i.tags "puppet:name" == some token) = [m] →
        get_puppetmaster (.strVal token) env cloud inputs =
          (.found m, [.listAllInstances])) ∧
    (((cloud.filter isMaster).filter (fun i => i.id == token)).length ≠ 1 →
      ((cloud.filter isMaster).filter
          (fun i => tagsGet i.tags "puppet:name" == some token)).length ≠ 1 →
      get_puppetmaster (.strVal token) env cloud inputs =
        (.died (gpDieMsg
            ((cloud.filter isMaster).filter (fun i => i.id == token)).length
            ((cloud.filter isMaster).filter
              (fun i => tagsGet i.tags "puppet:name" == some token)).length
            token),
         [.listAllInstances])) := by
  simp only [get_puppetmaster_strVal]
  generalize (cloud.filter isMaster).filter (fun i => i.id == token) = idm
  generalize (cloud.filter isMaster).filter
      (fun i => tagsGet i.tags "puppet:name" == some token) = nmm
  refine ⟨?_, ?_, ?_⟩
  · intro m hm
    subst hm
    rfl
  · intro hlen m hm
    subst hm
    match idm, hlen with
    | [], _ => rfl
    | [a], h => exact absurd rfl h
    | a :: b :: tl, _ => rfl
  · intro h1 h2
    match idm, h1 with
    | [], _ =>
      match nmm, h2 with
      | [], _ => rfl
      | [a], h => exact absurd rfl h
      | a :: b :: tl, _ => rfl
    | [a], h => exact absurd rfl h
    | a :: b :: tl, _ =>
      match nmm, h2 with
      | [], _ => rfl
      | [c], h => exact absurd rfl h
      | c :: d :: tl2, _ => rfl

/-- Witness for C2 at a concrete input: a unique identifier match is
returned. -/
theorem puppetmaster_token_lookup_witness :
    get_puppetmaster (.strVal "i-0") ⟨none⟩ [demoMaster 0] [] =
      (.found (demoMaster 0), [.listAllInstances]) :=
  (puppetmaster_token_lookup [demoMaster 0] "i-0" ⟨none⟩ []).1 (demoMaster 0) (by decide)

/-- Claim C9: when the argument to `get_puppetmaster` is neither an
instance handle nor a string, a set working-master context wins (the
argument, `None` or otherwise, is ignored); with no context and a non-None,
non-string, non-instance argument, the function falls off the end,
returning Python `None` without raising. -/
theorem puppetmaster_fallthrough (env : FabEnv) (cloud : List Instance)
    (inputs : List String) :
    (∀ m, env.working_master = some m →
      (get_puppetmaster .noneVal env cloud inputs).1 = .found m ∧
      (get_puppetmaster .otherVal env cloud inputs).1 = .found m) ∧
    (env.working_master = none →
      (get_puppetmaster .otherVal env cloud inputs).1 = .pyNone) := by
  constructor
  · intro m hm
    rw [get_puppetmaster_noneVal, get_puppetmaster_otherVal, hm]
    exact ⟨rfl, rfl⟩
  · intro hm
    rw [get_puppetmaster_otherVal, hm]

/-- Witness for C9 at concrete inputs: a set context is returned for a
`None` argument; an unset context with a non-None non-string argument
yields Python `None`. -/
theorem puppetmaster_fallthrough_witness :
    (get_puppetmaster .noneVal ⟨some (demoMaster 0)⟩ [] []).1 = .found (demoMaster 0) ∧
    (get_puppetmaster .otherVal ⟨none⟩ [] []).1 = .pyNone :=
  ⟨((puppetmaster_fallthrough ⟨some (demoMaster 0)⟩ [] []).1 (demoMaster 0) rfl).1,
   (puppetmaster_fallthrough ⟨none⟩ [] []).2 rfl⟩

/-- A status-refresh call is not the account-listing call. -/
theorem statusCall_beq_listAll (x : String) :
    (ApiCall.instanceStatus x == ApiCall.listAllInstances) = false := rfl

/-- The account-listing call equals itself under `BEq`. -/
theorem listAll_beq_listAll :
    (ApiCall.listAllInstances == ApiCall.listAllInstances) = true := rfl

/-- The status-refresh calls made while rendering the master menu are not
account-listing calls. -/
theorem count_listAll_statusCalls (l : List Instance) :
    (l.map (fun i => ApiCall.instanceStatus i.id)).count ApiCall.listAllInstances = 0 := by
  induction l with
  | nil => rfl
  | cons a t ih => simpa [List.count_cons, statusCall_beq_listAll] using ih

/-- Counterexample to claim C8 as stated: an invocation of
`get_puppetmaster` whose argument is an already-resolved instance handle
issues no cloud API call at all, in particular not exactly one
account-listing call. -/
theorem puppetmaster_inst_arg_no_list_call :
    ¬ ((get_puppetmaster (.instVal (demoMaster 0)) ⟨none⟩ [demoMaster 0] []).2.count
        ApiCall.listAllInstances = 1) := by
  decide

/-- Claim C8 amended: an invocation of `get_puppetmaster` issues exactly
one "list all instances in account" call unless its argument is an
already-resolved instance handle, which is returned before any API call
(zero listing calls). -/
theorem puppetmaster_list_call_count (arg : PyVal) (env : FabEnv)
    (cloud : List Instance) (inputs : List String) :
    (get_puppetmaster arg env cloud inputs).2.count ApiCall.listAllInstances =
      (if isInstArg arg then 0 else 1) := by
  cases arg with
  | instVal i => rfl
  | strVal s =>
    rw [get_puppetmaster_strVal]
    split
    · rfl
    · split
      · rfl
      · rfl
  | noneVal =>
    rw [get_puppetmaster_noneVal]
    have hrhs : (if isInstArg PyVal.noneVal then 0 else 1) = 1 := rfl
    rw [hrhs]
    repeat' split
    all_goals
      simp [List.count_cons, count_listAll_statusCalls, listAll_beq_listAll]
  | otherVal =>
    rw [get_puppetmaster_otherVal]
    cases hw : env.working_master with
    | some m => rfl
    | none => rfl

/-- Claim C6 (code bug): with 11 masters the menu prompt's validation
pattern is `^[0-10]$`, whose character class denotes the range `0`-`1`
plus the literal `0`, so it accepts only "0" and "1": the in-range
indices "5" and "10" are rejected, and an operator offering "10", "5"
and "2" is re-prompted forever instead of having a choice accepted —
contradicting the intended validation against `len(masters) - 1`. -/
theorem menu_validation_eleven_masters :
    menuValidate 10 "0" = true ∧
    menuValidate 10 "1" = true ∧
    menuValidate 10 "5" = false ∧
    menuValidate 10 "10" = false ∧
    (get_puppetmaster .noneVal ⟨none⟩ demoMasters ["10", "5", "2"]).1 =
      .promptPending := by
  refine ⟨rfl, rfl, rfl, rfl, ?_⟩
  decide

/-- Counterexample to claim C5 as stated: starting from a cloud with no
security groups, two calls of the memoized `ec2_security_group` make
exactly one create call, but the second call reports "created" — the
memoized result of the first call — and not "existing". -/
theorem security_group_twice_cx :
    (ec2_security_group_twice "puppet" ⟨[], 0, 0⟩).2.2.create_calls = 1 ∧
    (ec2_security_group_twice "puppet" ⟨[], 0, 0⟩).2.1.2 = "created" ∧
    ¬ ((ec2_security_group_twice "puppet" ⟨[], 0, 0⟩).2.1.2 = "existing") := by
  refine ⟨rfl, rfl, ?_⟩
  decide

/-- Claim C5 amended: the second of two calls with the same configured
group name returns the first call's memoized result and leaves the cloud
exactly as the first call left it (no further listing or create call);
across the two calls exactly one listing call is made and exactly one
create call when the group was initially absent — none when it already
existed, in which case both calls report "existing". -/
theorem security_group_twice_memoized (groupName : String) (cloud : CloudSG) :
    (ec2_security_group_twice groupName cloud).2.1 =
      (ec2_security_group_twice groupName cloud).1 ∧
    (ec2_security_group_twice groupName cloud).2.2 =
      (ec2_security_group groupName none cloud).2.2 ∧
    (ec2_security_group_twice groupName cloud).2.2.list_calls =
      cloud.list_calls + 1 ∧
    (if (cloud.groups.find? (fun g => g.name == groupName)).isSome then
      (ec2_security_group_twice groupName cloud).2.2.create_calls =
        cloud.create_calls ∧
      (ec2_security_group_twice groupName cloud).1.2 = "existing"
    else
      (ec2_security_group_twice groupName cloud).2.2.create_calls =
        cloud.create_calls + 1 ∧
      (ec2_security_group_twice groupName cloud).1.2 = "created") := by
  unfold ec2_security_group_twice ec2_security_group ec2_security_group_body
  cases h : cloud.groups.find? (fun g => g.name == groupName) with
  | some g => simp [h]
  | none => simp [h]

/-- Per-iteration counts: each slave block contains exactly one
`role=slave` tag write, one back-reference tag write carrying the
master's identifier, one readiness wait and one install command, among
its six events. -/
theorem slave_block_counts (master : Instance) (slaveName : String) (inst : Instance) :
    (slave_block master slaveName inst).countP isSlaveRoleTag = 1 ∧
    (slave_block master slaveName inst).countP (isMasterRefTag master.id) = 1 ∧
    (slave_block master slaveName inst).countP isWaitEvent = 1 ∧
    (slave_block master slaveName inst).countP isInstallEvent = 1 ∧
    (slave_block master slaveName inst).length = 6 := by
  refine ⟨?_, ?_, ?_, ?_, rfl⟩ <;>
    simp [slave_block, isSlaveRoleTag, isMasterRefTag, isWaitEvent, isInstallEvent,
      List.countP_cons, List.countP_nil]

/-- The trace of `num` loop iterations has exactly `6 * num` events. -/
theorem create_slaves_trace_length (master : Instance) (slaveName : String)
    (insts : Nat → Instance) :
    ∀ num, (create_slaves_trace master slaveName insts num).length = 6 * num := by
  intro num
  induction num with
  | zero => rfl
  | succ n ih =>
    show (create_slaves_trace master slaveName insts n ++
      slave_block master slaveName (insts n)).length = 6 * (n + 1)
    rw [List.length_append, ih, (slave_block_counts master slaveName (insts n)).2.2.2.2]
    omega

/-- The first `6 * a` events of a longer run are exactly the complete
trace of the first `a` iterations: iteration boundaries never interleave. -/
theorem create_slaves_trace_take (master : Instance) (slaveName : String)
    (insts : Nat → Instance) :
    ∀ num a, a ≤ num →
      (create_slaves_trace master slaveName insts num).take (6 * a) =
        create_slaves_trace master slaveName insts a := by
  intro num
  induction num with
  | zero =>
    intro a ha
    rw [Nat.le_zero.mp ha]
    rfl
  | succ n ih =>
    intro a ha
    rcases Nat.lt_or_ge a (n + 1) with h | h
    · have ha' : a ≤ n := Nat.lt_succ_iff.mp h
      show (create_slaves_trace master slaveName insts n ++
        slave_block master slaveName (insts n)).take (6 * a) = _
      rw [List.take_append_of_le_length, ih a ha']
      rw [create_slaves_trace_length]
      omega
    · have heq : a = n + 1 := Nat.le_antisymm ha h
      subst heq
      apply List.take_of_length_le
      rw [create_slaves_trace_length]

/-- Claim C4: `num` iterations of the `create_slaves` loop perform exactly
`num` `role=slave` tag writes, exactly `num` back-reference tag writes
carrying the master's identifier, exactly `num` readiness waits and
exactly `num` install commands, over `6 * num` events in total; and the
per-instance steps are strictly sequential — for every `i < num` the
first `6 * (i + 1)` events are precisely the complete blocks of the first
`i + 1` instances, so instance `i` is fully launched, tagged, waited on
and installed before instance `i + 1` begins. -/
theorem create_slaves_counts_seq (master : Instance) (slaveName : String)
    (insts : Nat → Instance) (num : Nat) :
    (create_slaves_trace master slaveName insts num).countP isSlaveRoleTag = num ∧
    (create_slaves_trace master slaveName insts num).countP
      (isMasterRefTag master.id) = num ∧
    (create_slaves_trace master slaveName insts num).countP isWaitEvent = num ∧
    (create_slaves_trace master slaveName insts num).countP isInstallEvent = num ∧
    (create_slaves_trace master slaveName insts num).length = 6 * num ∧
    (∀ i, i < num →
      (create_slaves_trace master slaveName insts num).take (6 * (i + 1)) =
        create_slaves_trace master slaveName insts (i + 1)) := by
  refine ⟨?_, ?_, ?_, ?_, create_slaves_trace_length master slaveName insts num,
    fun i hi => create_slaves_trace_take master slaveName insts num (i + 1) hi⟩ <;>
  · induction num with
    | zero => rfl
    | succ n ih =>
      show (create_slaves_trace master slaveName insts n ++
        slave_block master slaveName (insts n)).countP _ = n + 1
      rw [List.countP_append, ih]
      have hb := slave_block_counts master slaveName (insts n)
      omega

/-- Witness for C4 at `num = 3`, `i = 1`: three role-tag writes, and the
first twelve events are the two complete blocks of instances 0 and 1. -/
theorem create_slaves_counts_seq_witness :
    (create_slaves_trace (demoMaster 0) "s" demoMaster 3).countP isSlaveRoleTag = 3 ∧
    (create_slaves_trace (demoMaster 0) "s" demoMaster 3).take 12 =
      create_slaves_trace (demoMaster 0) "s" demoMaster 2 := by
  refine ⟨(create_slaves_counts_seq (demoMaster 0) "s" demoMaster 3).1, ?_⟩
  have h := (create_slaves_counts_seq (demoMaster 0) "s" demoMaster 3).2.2.2.2.2 1
    (by decide)
  simpa using h
